import Mathlib

/-!
Shallow embedding of `src/main.rs` of the `wzui` repository: a minimal
wgpu/winit program that opens a window, configures a surface, and each frame
clears the surface and draws one indexed quad.

GPU-side and windowing-side effects (surface reconfiguration, command-buffer
submission, presentation, redraw requests, loop exit, error logging) are
recorded as an explicit effect trace; machine integers (`u32` sizes, `u16`
indices) are modelled as `Nat` (all concrete values are far below the
respective bounds), and `f32`/`f64` literals of the source are modelled as the
exact rationals the source text denotes.
-/

/-- The five error kinds of `wgpu::SurfaceError`. -/
inductive SurfaceError
  | timeout
  | outdated
  | lost
  | outOfMemory
  | other
deriving DecidableEq, Repr

/-- A texture format as seen through the only query the program performs on
it, `TextureFormat::is_srgb`; `tag` distinguishes distinct formats. -/
structure TextureFormat where
  tag : Nat
  srgb : Bool
deriving DecidableEq, Repr

/-- An alpha-compositing mode, abstract (the program never inspects it). -/
structure AlphaMode where
  tag : Nat
deriving DecidableEq, Repr

/-- The `wgpu::PresentMode` enumeration; the program hard-codes `Fifo`. -/
inductive PresentMode
  | autoVsync
  | autoNoVsync
  | fifo
  | fifoRelaxed
  | immediate
  | mailbox
deriving DecidableEq, Repr

/-- The `wgpu::TextureUsages` flags as used here: only `RENDER_ATTACHMENT`
appears. -/
inductive TextureUsage
  | renderAttachment
deriving DecidableEq, Repr

/-- The `wgpu::SurfaceConfiguration` record (the fields the program sets). -/
structure SurfaceConfiguration where
  usage : TextureUsage
  format : TextureFormat
  width : Nat
  height : Nat
  presentMode : PresentMode
  desiredMaximumFrameLatency : Nat
  alphaMode : AlphaMode
  viewFormats : List TextureFormat
deriving DecidableEq, Repr

/-- The `wgpu::SurfaceCapabilities` record, as queried by
`surface.get_capabilities`. -/
structure SurfaceCapabilities where
  formats : List TextureFormat
  presentModes : List PresentMode
  alphaModes : List AlphaMode
deriving DecidableEq, Repr

/-- A 3-component vector of `f32`, embedded as exact rationals. -/
structure Vec3 where
  x : ℚ
  y : ℚ
  z : ℚ
deriving DecidableEq, Repr

/-- The `Vertex` struct of `main.rs`: a 3-component position and a
3-component color. -/
structure Vertex where
  position : Vec3
  color : Vec3
deriving DecidableEq, Repr

/-- The fixed `VERTICES` array of `main.rs`: quad corners
top-left (red), bottom-left (green), bottom-right (blue), top-right
(yellow). -/
def VERTICES : List Vertex :=
  [ ⟨⟨-(1/2), 1/2, 0⟩, ⟨1, 0, 0⟩⟩,
    ⟨⟨-(1/2), -(1/2), 0⟩, ⟨0, 1, 0⟩⟩,
    ⟨⟨1/2, -(1/2), 0⟩, ⟨0, 0, 1⟩⟩,
    ⟨⟨1/2, 1/2, 0⟩, ⟨1, 1, 0⟩⟩ ]

/-- The fixed `INDICES` array of `main.rs` (`u16` values, embedded as
`Nat`): two triangles of the quad. -/
def INDICES : List Nat := [0, 1, 2, 0, 2, 3]

/-- The clear color of the render pass, `(r, g, b, a)` as exact rationals of
the source literals `0.1, 0.2, 0.3, 1.0`. -/
structure ClearColor where
  r : ℚ
  g : ℚ
  b : ℚ
  a : ℚ
deriving DecidableEq, Repr

/-- The `wgpu::LoadOp` of a color attachment. -/
inductive LoadOp
  | clear (c : ClearColor)
  | load
deriving DecidableEq, Repr

/-- The `wgpu::StoreOp` of a color attachment. -/
inductive StoreOp
  | store
  | discard
deriving DecidableEq, Repr

/-- One color attachment of a render pass: its load and store operations. -/
structure ColorAttachment where
  load : LoadOp
  store : StoreOp
deriving DecidableEq, Repr

/-- The commands recorded inside a render pass, in order. -/
inductive PassCommand
  | setPipeline
  | setVertexBuffer (slot : Nat)
  | setIndexBuffer16
  | drawIndexed (idxStart idxEnd baseVertex instStart instEnd : Nat)
deriving DecidableEq, Repr

/-- One render pass: its color attachments and its recorded commands. -/
structure RenderPass where
  colorAttachments : List ColorAttachment
  commands : List PassCommand
deriving DecidableEq, Repr

/-- A finished command buffer: the render passes it contains, in order. -/
abbrev CommandBuffer := List RenderPass

/-- The externally observable effects of the program, recorded as a trace. -/
inductive Effect
  | exitLoop
  | requestRedraw
  | logError (e : SurfaceError)
  | configureSurface (cfg : SurfaceConfiguration)
  | submit (cb : CommandBuffer)
  | present
deriving DecidableEq, Repr

/-- The `Renderer` struct of `main.rs` (the state-bearing fields; the opaque
device/queue/surface/pipeline handles carry no observable state and are
elided, the device-resident buffers are represented by their uploaded
contents). -/
structure RendererState where
  config : SurfaceConfiguration
  sizeW : Nat
  sizeH : Nat
  vertexBuffer : List Vertex
  indexBuffer : List Nat
  numIndices : Nat
deriving DecidableEq, Repr

/-- Function `Renderer::new`: given the window's current inner size and the surface
capabilities reported by the backend, picks the first sRGB-flagged format if
any (else the first reported format), the first reported alpha mode, `Fifo`
present mode, the window dimensions, and a frame-latency hint of 2; uploads
the fixed vertex and index arrays.  Returns `none` where the source would
panic (indexing `formats[0]` or `alpha_modes[0]` of an empty list). -/
def rendererNew (sizeW sizeH : Nat) (caps : SurfaceCapabilities) :
    Option RendererState :=
  match caps.formats, caps.alphaModes with
  | f0 :: _, a0 :: _ =>
    let format := (caps.formats.find? (fun f => f.srgb)).getD f0
    let config : SurfaceConfiguration :=
      { usage := .renderAttachment
        format := format
        width := sizeW
        height := sizeH
        presentMode := .fifo
        desiredMaximumFrameLatency := 2
        alphaMode := a0
        viewFormats := [] }
    some { config := config
           sizeW := sizeW
           sizeH := sizeH
           vertexBuffer := VERTICES
           indexBuffer := INDICES
           numIndices := INDICES.length }
  | _, _ => none

/-- Function `Renderer::resize`: if both dimensions are positive, store the new size,
update the configuration's width and height, and reconfigure the surface
(recorded as a `configureSurface` effect carrying the configuration used);
otherwise do nothing. -/
def resize (r : RendererState) (newW newH : Nat) :
    RendererState × List Effect :=
  if 0 < newW ∧ 0 < newH then
    let cfg := { r.config with width := newW, height := newH }
    ({ r with sizeW := newW, sizeH := newH, config := cfg },
     [.configureSurface cfg])
  else
    (r, [])

/-- Function `Renderer::render`: acquire the next surface texture (the acquisition
outcome is supplied by the environment as `acquire`); on failure the `?`
operator returns the error unchanged with no effects; on success record one
render pass (one color attachment cleared to `(0.1, 0.2, 0.3, 1.0)` and
stored, then set pipeline, bind vertex buffer at slot 0, bind the 16-bit
index buffer, one indexed draw over `0..num_indices` with base vertex 0 and
instances `0..1`), submit the single finished command buffer, and present. -/
def render (r : RendererState) (acquire : Except SurfaceError Unit) :
    Except SurfaceError Unit × RendererState × List Effect :=
  match acquire with
  | .error e => (.error e, r, [])
  | .ok _ =>
    let pass : RenderPass :=
      { colorAttachments :=
          [{ load := .clear ⟨1/10, 2/10, 3/10, 1⟩, store := .store }]
        commands :=
          [.setPipeline, .setVertexBuffer 0, .setIndexBuffer16,
           .drawIndexed 0 r.numIndices 0 0 1] }
    (.ok (), r, [.submit [pass], .present])

/-- The window, as seen by the handler: only its identifier is consulted. -/
structure WindowState where
  id : Nat
deriving DecidableEq, Repr

/-- The `App` struct of `main.rs`. -/
structure AppState where
  window : Option WindowState
  renderer : Option RendererState
deriving DecidableEq, Repr

/-- The window-event kinds the handler distinguishes (`other` stands for
every event swallowed by the `_ => {}` arm). -/
inductive WindowEvent
  | closeRequested
  | resized (w h : Nat)
  | redrawRequested
  | other
deriving DecidableEq, Repr

/-- Handler `App::window_event`: returns immediately if the window or renderer is
absent or the event's window id differs from the owned window's; dispatches
close-requested to loop exit, resized to `Renderer::resize`, and
redraw-requested to a redraw request followed by `Renderer::render`, exiting
the loop on a `Lost` or `OutOfMemory` render error and logging any other
render error.  `acquire` supplies the surface-acquisition outcome the
environment would produce inside `render`. -/
def windowEvent (app : AppState) (windowId : Nat) (event : WindowEvent)
    (acquire : Except SurfaceError Unit) : AppState × List Effect :=
  match app.window, app.renderer with
  | some window, some renderer =>
    if windowId ≠ window.id then
      (app, [])
    else
      match event with
      | .closeRequested => (app, [.exitLoop])
      | .resized w h =>
        let res := resize renderer w h
        ({ app with renderer := some res.1 }, res.2)
      | .redrawRequested =>
        let res := render renderer acquire
        let app2 := { app with renderer := some res.2.1 }
        match res.1 with
        | .error .lost => (app2, .requestRedraw :: res.2.2 ++ [.exitLoop])
        | .error .outOfMemory =>
          (app2, .requestRedraw :: res.2.2 ++ [.exitLoop])
        | .error e => (app2, .requestRedraw :: res.2.2 ++ [.logError e])
        | .ok _ => (app2, .requestRedraw :: res.2.2)
      | .other => (app, [])
  | _, _ => (app, [])

/-- Folding a sequence of resize calls over a renderer state (effects
dropped): the state after a resize-event sequence. -/
def applyResizes (r : RendererState) (l : List (Nat × Nat)) : RendererState :=
  l.foldl (fun r s => (resize r s.1 s.2).1) r

/-- A sample surface-capabilities value used by witnesses: two formats, the
second sRGB-flagged, one present mode, one alpha mode. -/
def sampleCaps : SurfaceCapabilities :=
  ⟨[⟨0, false⟩, ⟨1, true⟩], [.fifo], [⟨7⟩]⟩

/-- The renderer state `rendererNew` produces from `sampleCaps` at size
(800, 600). -/
def sampleRenderer : RendererState :=
  { config :=
      { usage := .renderAttachment
        format := ⟨1, true⟩
        width := 800
        height := 600
        presentMode := .fifo
        desiredMaximumFrameLatency := 2
        alphaMode := ⟨7⟩
        viewFormats := [] }
    sizeW := 800
    sizeH := 600
    vertexBuffer := VERTICES
    indexBuffer := INDICES
    numIndices := 6 }

/-- Claim C9: every value of the fixed index array is one of 0, 1, 2, 3 and
indexes a valid position of the 4-vertex array; the vertex (x, y) positions
are [(-0.5, 0.5), (-0.5, -0.5), (0.5, -0.5), (0.5, 0.5)] (all z = 0) with
colors red, green, blue, yellow, and the indices are [0, 1, 2, 0, 2, 3]. -/
theorem c9_geometry_valid :
    (∀ i ∈ INDICES, i < VERTICES.length) ∧
    VERTICES.map (fun v => (v.position.x, v.position.y)) =
      [(-(1/2 : ℚ), (1/2 : ℚ)), (-(1/2), -(1/2)), (1/2, -(1/2)), (1/2, 1/2)] ∧
    (∀ v ∈ VERTICES, v.position.z = 0) ∧
    VERTICES.map Vertex.color =
      [⟨1, 0, 0⟩, ⟨0, 1, 0⟩, ⟨0, 0, 1⟩, ⟨1, 1, 0⟩] ∧
    INDICES = [0, 1, 2, 0, 2, 3] ∧
    VERTICES.length = 4 := by
  refine ⟨by decide, rfl, by decide, rfl, rfl, rfl⟩

/-- Claim C5: a resize with either dimension zero leaves the stored size and
the surface configuration unchanged and emits no surface reconfiguration. -/
theorem c5_zero_resize_noop (r : RendererState) (w h : Nat) :
    resize r 0 h = (r, []) ∧ resize r w 0 = (r, []) := by
  constructor <;> simp [resize]

/-- Claim C7: when acquisition fails, `render` returns that error unmodified,
submits nothing, presents nothing, and leaves the renderer state unchanged. -/
theorem c7_acquire_failure_propagates (r : RendererState) (e : SurfaceError) :
    render r (.error e) = (.error e, r, []) := rfl

/-- Claim C8: resize with positive dimensions is idempotent on the renderer
state (stored size and surface configuration). -/
theorem c8_resize_idempotent (r : RendererState) (w h : Nat)
    (hw : 0 < w) (hh : 0 < h) :
    (resize (resize r w h).1 w h).1 = (resize r w h).1 := by
  simp [resize, hw, hh]

theorem c8_resize_idempotent_witness :
    (resize (resize sampleRenderer 1024 768).1 1024 768).1 =
      (resize sampleRenderer 1024 768).1 :=
  c8_resize_idempotent sampleRenderer 1024 768 (by decide) (by decide)

/-- Claim C10: an event arriving before window and renderer exist, or
carrying a foreign window id, leaves the application state unchanged and
produces no effect. -/
theorem c10_guarded_events_noop (app : AppState) (windowId : Nat)
    (event : WindowEvent) (acquire : Except SurfaceError Unit)
    (hguard : app.window = none ∨ app.renderer = none ∨
      ∀ w, app.window = some w → windowId ≠ w.id) :
    windowEvent app windowId event acquire = (app, []) := by
  obtain ⟨win, ren⟩ := app
  cases win with
  | none => rfl
  | some w =>
    cases ren with
    | none => rfl
    | some r =>
      rcases hguard with hguard | hguard | hguard
      · exact absurd hguard (by simp)
      · exact absurd hguard (by simp)
      · have hne : windowId ≠ w.id := hguard w rfl
        simp [windowEvent, hne]

theorem c10_guarded_events_noop_witness :
    windowEvent ⟨none, none⟩ 0 .closeRequested (.ok ()) =
      (⟨none, none⟩, []) :=
  c10_guarded_events_noop ⟨none, none⟩ 0 .closeRequested (.ok ())
    (Or.inl rfl)

/-- Counterexample to claim C1 as stated: on a surface-lost acquisition
failure the handler exits the event loop (the trace ends in `exitLoop`)
instead of skipping the frame and continuing. -/
theorem c1_lost_exits_counterexample :
    (windowEvent ⟨some ⟨0⟩, some sampleRenderer⟩ 0 .redrawRequested
        (.error .lost)).2 = [.requestRedraw, .exitLoop] := rfl

/-- Claim C1 (amended): in the redraw handler, an out-of-memory or a
surface-lost render failure terminates the event loop with the frame
skipped (nothing submitted or presented); every other render error is
logged and the frame is skipped without terminating. -/
theorem c1_render_error_policy (w : WindowState) (r : RendererState)
    (e : SurfaceError) :
    (windowEvent ⟨some w, some r⟩ w.id .redrawRequested (.error e)).2 =
      if e = .lost ∨ e = .outOfMemory then
        [.requestRedraw, .exitLoop]
      else
        [.requestRedraw, .logError e] := by
  cases e <;> simp [windowEvent, render]

/-- Counterexample to claim C2 as stated: on a redraw event whose render
fails (here with a `Timeout` acquisition error, which is logged), a redraw
request is still issued — the request precedes the render call and is
unconditional. -/
theorem c2_redraw_after_failure_counterexample :
    (windowEvent ⟨some ⟨0⟩, some sampleRenderer⟩ 0 .redrawRequested
        (.error .timeout)).2 = [.requestRedraw, .logError .timeout] := rfl

/-- Claim C2 (amended): on every redraw-requested event delivered for the
owned window, exactly one continuous-redraw request is issued, as the first
effect and before `render` runs, regardless of the render outcome. -/
theorem c2_redraw_always_requested (w : WindowState) (r : RendererState)
    (acquire : Except SurfaceError Unit) :
    ∃ rest,
      (windowEvent ⟨some w, some r⟩ w.id .redrawRequested acquire).2 =
        .requestRedraw :: rest ∧
      Effect.requestRedraw ∉ rest := by
  cases acquire with
  | error e =>
    cases e with
    | timeout =>
      exact ⟨[.logError .timeout], by simp [windowEvent, render], by simp⟩
    | outdated =>
      exact ⟨[.logError .outdated], by simp [windowEvent, render], by simp⟩
    | lost =>
      exact ⟨[.exitLoop], by simp [windowEvent, render], by simp⟩
    | outOfMemory =>
      exact ⟨[.exitLoop], by simp [windowEvent, render], by simp⟩
    | other =>
      exact ⟨[.logError .other], by simp [windowEvent, render], by simp⟩
  | ok u =>
    exact ⟨[.submit
        [{ colorAttachments :=
             [{ load := .clear ⟨1/10, 2/10, 3/10, 1⟩, store := .store }]
           commands :=
             [.setPipeline, .setVertexBuffer 0, .setIndexBuffer16,
              .drawIndexed 0 r.numIndices 0 0 1] }],
      .present], by simp [windowEvent, render], by simp⟩

theorem resize_preserves_buffers (r : RendererState) (a b : Nat) :
    (resize r a b).1.vertexBuffer = r.vertexBuffer ∧
    (resize r a b).1.indexBuffer = r.indexBuffer ∧
    (resize r a b).1.numIndices = r.numIndices := by
  unfold resize
  split <;> exact ⟨rfl, rfl, rfl⟩

theorem applyResizes_preserves_buffers (l : List (Nat × Nat))
    (r : RendererState) :
    (applyResizes r l).vertexBuffer = r.vertexBuffer ∧
    (applyResizes r l).indexBuffer = r.indexBuffer ∧
    (applyResizes r l).numIndices = r.numIndices := by
  induction l generalizing r with
  | nil => exact ⟨rfl, rfl, rfl⟩
  | cons s t ih =>
    obtain ⟨h1, h2, h3⟩ := ih (resize r s.1 s.2).1
    obtain ⟨g1, g2, g3⟩ := resize_preserves_buffers r s.1 s.2
    exact ⟨h1.trans g1, h2.trans g2, h3.trans g3⟩

/-- Claim C3: in any state reached from construction by resize events,
a render whose acquisition succeeds submits exactly one command buffer
holding exactly one render pass, whose single color attachment clears to
`(0.1, 0.2, 0.3, 1.0)` and stores, followed by one indexed draw of the 6
indices over the 4-vertex buffer with one instance, then presents. -/
theorem c3_render_one_submission (sizeW sizeH : Nat)
    (caps : SurfaceCapabilities) (st : RendererState) (l : List (Nat × Nat))
    (hnew : rendererNew sizeW sizeH caps = some st) :
    render (applyResizes st l) (.ok ()) =
      (.ok (), applyResizes st l,
        [.submit
            [{ colorAttachments :=
                 [{ load := .clear ⟨1/10, 2/10, 3/10, 1⟩, store := .store }]
               commands :=
                 [.setPipeline, .setVertexBuffer 0, .setIndexBuffer16,
                  .drawIndexed 0 6 0 0 1] }],
         .present]) ∧
    (applyResizes st l).vertexBuffer.length = 4 := by
  have hst : st.numIndices = 6 ∧ st.vertexBuffer = VERTICES := by
    obtain ⟨formats, pms, alphas⟩ := caps
    cases formats with
    | nil => exact absurd hnew (by simp [rendererNew])
    | cons f0 fs =>
      cases alphas with
      | nil => exact absurd hnew (by simp [rendererNew])
      | cons a0 as =>
        rw [rendererNew] at hnew
        injection hnew with hnew
        exact ⟨by rw [← hnew]; rfl, by rw [← hnew]⟩
  obtain ⟨hb1, hb2, hb3⟩ := applyResizes_preserves_buffers l st
  constructor
  · rw [render]
    rw [hb3, hst.1]
  · rw [hb1, hst.2]
    rfl

theorem c3_render_one_submission_witness :
    render (applyResizes sampleRenderer [(1024, 768)]) (.ok ()) =
      (.ok (), applyResizes sampleRenderer [(1024, 768)],
        [.submit
            [{ colorAttachments :=
                 [{ load := .clear ⟨1/10, 2/10, 3/10, 1⟩, store := .store }]
               commands :=
                 [.setPipeline, .setVertexBuffer 0, .setIndexBuffer16,
                  .drawIndexed 0 6 0 0 1] }],
         .present]) ∧
    (applyResizes sampleRenderer [(1024, 768)]).vertexBuffer.length = 4 :=
  c3_render_one_submission 800 600 sampleCaps sampleRenderer [(1024, 768)]
    rfl

theorem applyResizes_last (l : List (Nat × Nat)) :
    ∀ (r : RendererState) (wh : Nat × Nat), l.getLast? = some wh →
      (∀ p ∈ l, 0 < p.1 ∧ 0 < p.2) →
      (applyResizes r l).config.width = wh.1 ∧
      (applyResizes r l).config.height = wh.2 ∧
      (applyResizes r l).sizeW = wh.1 ∧
      (applyResizes r l).sizeH = wh.2 := by
  induction l with
  | nil => intro r wh h; cases h
  | cons s t ih =>
    intro r wh hlast hnz
    cases t with
    | nil =>
      have hwh : s = wh := by simpa using hlast
      subst hwh
      obtain ⟨h1, h2⟩ := hnz s (by simp)
      simp [applyResizes, resize, h1, h2]
    | cons s2 t2 =>
      have hlast2 : (s2 :: t2).getLast? = some wh := by
        rw [List.getLast?_cons_cons] at hlast
        exact hlast
      have hnz2 : ∀ p ∈ s2 :: t2, 0 < p.1 ∧ 0 < p.2 :=
        fun p hp => hnz p (List.mem_cons_of_mem _ hp)
      have h := ih (resize r s.1 s.2).1 wh hlast2 hnz2
      simpa [applyResizes] using h

/-- Claim C4: after any nonempty sequence of resizes with positive
dimensions, the configuration's width and height and the stored size all
equal the most recently applied dimensions, and each positive resize call
reconfigures the surface synchronously within that call, with exactly the
updated configuration. -/
theorem c4_config_tracks_last_resize (r : RendererState)
    (l : List (Nat × Nat)) (wh : Nat × Nat) (hlast : l.getLast? = some wh)
    (hnz : ∀ p ∈ l, 0 < p.1 ∧ 0 < p.2) :
    ((applyResizes r l).config.width = wh.1 ∧
     (applyResizes r l).config.height = wh.2 ∧
     (applyResizes r l).sizeW = wh.1 ∧
     (applyResizes r l).sizeH = wh.2) ∧
    ∀ (r2 : RendererState) (a b : Nat), 0 < a → 0 < b →
      (resize r2 a b).2 = [.configureSurface (resize r2 a b).1.config] :=
  ⟨applyResizes_last l r wh hlast hnz,
   fun r2 a b ha hb => by simp [resize, ha, hb]⟩

theorem c4_config_tracks_last_resize_witness :
    (applyResizes sampleRenderer [(1024, 768), (640, 480)]).config.width =
        640 ∧
    (applyResizes sampleRenderer [(1024, 768), (640, 480)]).config.height =
        480 ∧
    (resize sampleRenderer 1024 768).2 =
      [.configureSurface (resize sampleRenderer 1024 768).1.config] := by
  obtain ⟨⟨h1, h2, h3, h4⟩, h5⟩ :=
    c4_config_tracks_last_resize sampleRenderer [(1024, 768), (640, 480)]
      (640, 480) rfl (by decide)
  exact ⟨h1, h2, h5 sampleRenderer 1024 768 (by decide) (by decide)⟩

theorem find?_first {α : Type} (p : α → Bool) (l : List α) (a : α)
    (h : l.find? p = some a) :
    ∃ l1 l2, l = l1 ++ a :: l2 ∧ p a = true ∧ ∀ x ∈ l1, p x = false := by
  induction l with
  | nil => cases h
  | cons b t ih =>
    by_cases hb : p b = true
    · rw [List.find?_cons_of_pos _ hb] at h
      injection h with h
      subst h
      exact ⟨[], t, rfl, hb, by simp⟩
    · rw [List.find?_cons_of_neg _ (by simpa using hb)] at h
      obtain ⟨l1, l2, hl, hpa, hall⟩ := ih h
      refine ⟨b :: l1, l2, by rw [List.cons_append, hl], hpa, ?_⟩
      intro x hx
      rcases List.mem_cons.mp hx with hx | hx
      · subst hx
        simpa using hb
      · exact hall x hx

/-- Claim C6: construction picks as surface format the first reported
format flagged sRGB when one exists (no earlier reported format is sRGB),
else the first reported format; it picks the first reported alpha mode, the
`Fifo` (vertical-sync-locked) present mode, the window's current pixel
dimensions, and a frame-latency hint of 2. -/
theorem c6_construct_choices (sizeW sizeH : Nat) (caps : SurfaceCapabilities)
    (f0 : TextureFormat) (fs : List TextureFormat) (a0 : AlphaMode)
    (as : List AlphaMode) (hf : caps.formats = f0 :: fs)
    (ha : caps.alphaModes = a0 :: as) :
    ∃ st, rendererNew sizeW sizeH caps = some st ∧
      ((∃ l1 l2, caps.formats = l1 ++ st.config.format :: l2 ∧
          st.config.format.srgb = true ∧ ∀ f ∈ l1, f.srgb = false) ∨
        ((∀ f ∈ caps.formats, f.srgb = false) ∧ st.config.format = f0)) ∧
      st.config.alphaMode = a0 ∧
      st.config.presentMode = .fifo ∧
      st.config.width = sizeW ∧
      st.config.height = sizeH ∧
      st.config.desiredMaximumFrameLatency = 2 := by
  obtain ⟨formats, pms, alphas⟩ := caps
  simp only at hf ha
  subst hf
  subst ha
  cases hfind : (f0 :: fs).find? (fun f => f.srgb) with
  | none =>
    refine ⟨_, rfl, Or.inr ⟨?_, ?_⟩, rfl, rfl, rfl, rfl, rfl⟩
    · intro f hfmem
      have := List.find?_eq_none.mp hfind f hfmem
      simpa using this
    · show ((f0 :: fs).find? (fun f => f.srgb)).getD f0 = f0
      rw [hfind]
      rfl
  | some g =>
    refine ⟨_, rfl, Or.inl ?_, rfl, rfl, rfl, rfl, rfl⟩
    obtain ⟨l1, l2, hl, hp, hall⟩ := find?_first _ _ _ hfind
    have hfmt : ((f0 :: fs).find? (fun f => f.srgb)).getD f0 = g := by
      rw [hfind]
      rfl
    refine ⟨l1, l2, ?_, ?_, hall⟩
    · show f0 :: fs =
        l1 ++ (((f0 :: fs).find? (fun f => f.srgb)).getD f0) :: l2
      rw [hfmt]
      exact hl
    · show (((f0 :: fs).find? (fun f => f.srgb)).getD f0).srgb = true
      rw [hfmt]
      exact hp

theorem c6_construct_choices_witness :
    ∃ st, rendererNew 800 600 sampleCaps = some st ∧
      ((∃ l1 l2, sampleCaps.formats = l1 ++ st.config.format :: l2 ∧
          st.config.format.srgb = true ∧ ∀ f ∈ l1, f.srgb = false) ∨
        ((∀ f ∈ sampleCaps.formats, f.srgb = false) ∧
          st.config.format = ⟨0, false⟩)) ∧
      st.config.alphaMode = ⟨7⟩ ∧
      st.config.presentMode = .fifo ∧
      st.config.width = 800 ∧
      st.config.height = 600 ∧
      st.config.desiredMaximumFrameLatency = 2 :=
  c6_construct_choices 800 600 sampleCaps ⟨0, false⟩ [⟨1, true⟩] ⟨7⟩ []
    rfl rfl
